import Mathlib

/-!
Shallow embedding of the bulk-tanker delivery core of this repository:
the SQLAlchemy models in `app/models/bulk_tanker.py` and the FastAPI
handlers in `app/api/v1/bulk_tanker_delivery.py`.

Modelling conventions:
* machine integers (volumes, capacities) are `Int`;
* Python `Decimal` values (densities, weights, costs) are `ℚ`
  (exact decimal arithmetic);
* datetimes are opaque `Int` timestamps, `last_inspection` an opaque
  `Option String` (its ISO rendering);
* the persistence store is an explicit `DB` record of row lists; an
  HTTP handler becomes a function `DB → ... → Except ApiError ...`
  (a raised `HTTPException` is `Except.error`, which by transaction
  rollback leaves the store unchanged);
* the status columns that the source keeps as plain strings
  (`delivery_status`, `assignment_status`) stay `String`; the columns
  backed by Python `enum.Enum` classes become inductives.
-/

deriving instance DecidableEq for Except

inductive FuelType
  | diesel
  | petrol
  | kerosene
  | jet_fuel
  | heating_oil
  | marine_fuel
  | biofuel
deriving DecidableEq

inductive CompartmentStatus
  | operational
  | maintenance_required
  | failed
  | cleaning_in_progress
  | out_of_service
deriving DecidableEq

inductive TankerCertificationStatus
  | certified
  | expired
  | suspended
  | pending_renewal
deriving DecidableEq

/-- Row of `fuel_products` (the fields this core reads). -/
structure FuelProduct where
  id : Nat
  project_id : Nat
  product_name : String
  product_code : String
  fuel_type : FuelType
  density_kg_per_liter : ℚ
  hazmat_class : String
  cross_contamination_risk : List String
  cleaning_required_after : List String
deriving DecidableEq

/-- Row of `tanker_compartments` (the fields this core reads). -/
structure TankerCompartment where
  id : Nat
  tanker_vehicle_id : Nat
  capacity_liters : Int
  operational_status : CompartmentStatus
  current_product_id : Option Nat
  current_volume_liters : Int
  last_product_id : Option Nat
  requires_cleaning : Bool
deriving DecidableEq

/-- Row of `bulk_tanker_vehicles` (the fields this core reads). -/
structure BulkTankerVehicle where
  id : Nat
  project_id : Nat
  total_capacity_liters : Int
  compartment_count : Nat
  dot_certified : Bool
  hazmat_certification : Bool
  certification_status : TankerCertificationStatus
  last_inspection : Option String
deriving DecidableEq

/-- Row of `bulk_tanker_deliveries` (the fields this core touches). -/
structure StoredDelivery where
  id : Nat
  project_id : Nat
  tanker_vehicle_id : Nat
  total_volume_liters : Int
  total_weight_kg : ℚ
  capacity_utilization_percent : ℚ
  compartments_used : Nat
  delivery_status : String
  actual_departure : Option Int
  actual_completion : Option Int
  distance_traveled_km : Option ℚ
  fuel_consumed_liters : Option ℚ
  co2_emissions_kg : Option ℚ
  safety_incidents : Option (List String)
deriving DecidableEq

/-- Row of `compartment_delivery_assignments` (the fields this core touches). -/
structure StoredAssignment where
  delivery_id : Nat
  compartment_id : Nat
  fuel_product_id : Nat
  delivery_location_id : Nat
  assigned_volume_liters : Int
  calculated_weight_kg : ℚ
  loading_sequence : Option Int
  special_handling_requirements : Option String
  assignment_status : String
deriving DecidableEq

/-- The persistence store seen by the handlers. -/
structure DB where
  vehicles : List BulkTankerVehicle
  compartments : List TankerCompartment
  products : List FuelProduct
  deliveries : List StoredDelivery
  assignments : List StoredAssignment
deriving DecidableEq

/-- Lookup `TankerCompartments.id == cid` (`scalar_one_or_none`). -/
def findCompartment (db : DB) (cid : Nat) : Option TankerCompartment :=
  db.compartments.find? (fun c => c.id == cid)

/-- Lookup `FuelProducts.id == pid` (`scalar_one_or_none`). -/
def findProduct (db : DB) (pid : Nat) : Option FuelProduct :=
  db.products.find? (fun p => p.id == pid)

/-- Lookup `BulkTankerVehicles.id == vid AND project_id == project_id`. -/
def findVehicle (db : DB) (vid : Nat) (project_id : Nat) : Option BulkTankerVehicle :=
  db.vehicles.find? (fun v => v.id == vid && v.project_id == project_id)

/-- Lookup `BulkTankerDeliveries.id == did`. -/
def findDelivery (db : DB) (did : Nat) : Option StoredDelivery :=
  db.deliveries.find? (fun d => d.id == did)

/-- The `compartment.last_product` relationship: resolve `last_product_id`. -/
def lastProductOf (db : DB) (c : TankerCompartment) : Option FuelProduct :=
  c.last_product_id.bind (findProduct db)

/-- Pydantic request model `CompartmentAssignmentRequest` (raw field values). -/
structure CompartmentAssignmentRequest where
  compartment_id : Nat
  fuel_product_id : Nat
  assigned_volume_liters : Int
  delivery_location_id : Nat
  loading_sequence : Option Int
  special_handling_requirements : Option String
deriving DecidableEq

/-- The `validate_volume` validator of `CompartmentAssignmentRequest`. -/
def validate_volume (v : Int) : Except String Int :=
  if v ≤ 0 then Except.error "Volume must be positive"
  else if v > 50000 then Except.error "Volume exceeds reasonable compartment capacity"
  else Except.ok v

/-- Pydantic validation of one `CompartmentAssignmentRequest`: the
`gt=0` field constraints and the `validate_volume` validator. -/
def parseAssignmentRequest (a : CompartmentAssignmentRequest) :
    Except String CompartmentAssignmentRequest :=
  if a.assigned_volume_liters ≤ 0 then
    Except.error "ensure this value is greater than 0"
  else
    match validate_volume a.assigned_volume_liters with
    | Except.error m => Except.error m
    | Except.ok _ =>
      match a.loading_sequence with
      | some s =>
        if s ≤ 0 then Except.error "ensure this value is greater than 0"
        else Except.ok a
      | none => Except.ok a

/-- Pydantic validation of a list of assignment requests, first failure wins. -/
def parseAssignmentList :
    List CompartmentAssignmentRequest → Except String (List CompartmentAssignmentRequest)
  | [] => Except.ok []
  | a :: rest =>
    match parseAssignmentRequest a with
    | Except.error m => Except.error m
    | Except.ok a2 =>
      match parseAssignmentList rest with
      | Except.error m => Except.error m
      | Except.ok r2 => Except.ok (a2 :: r2)

/-- Pydantic request model `BulkTankerDeliveryRequest` (raw field values). -/
structure BulkTankerDeliveryRequest where
  tanker_vehicle_id : Nat
  driver_id : Option Nat
  planned_departure : Int
  planned_completion : Int
  delivery_type : String
  compartment_assignments : List CompartmentAssignmentRequest
deriving DecidableEq

/-- The `validate_assignments` validator of `BulkTankerDeliveryRequest`. -/
def validate_assignments (v : List CompartmentAssignmentRequest) :
    Except String (List CompartmentAssignmentRequest) :=
  if v.length == 0 then Except.error "At least one compartment assignment is required"
  else if v.length > 12 then Except.error "Too many compartment assignments"
  else if (v.map (fun a => a.compartment_id)).Nodup then Except.ok v
  else Except.error "Duplicate compartment assignments not allowed"

/-- Pydantic validation of a `BulkTankerDeliveryRequest`: the
`validate_completion_time` validator, the `delivery_type` regex,
per-item validation of the assignments, then `validate_assignments`. -/
def parseDeliveryRequest (r : BulkTankerDeliveryRequest) :
    Except String BulkTankerDeliveryRequest :=
  if r.planned_completion ≤ r.planned_departure then
    Except.error "Completion time must be after departure time"
  else if !(r.delivery_type == "standard" || r.delivery_type == "emergency"
      || r.delivery_type == "scheduled") then
    Except.error "delivery_type does not match the allowed pattern"
  else
    match parseAssignmentList r.compartment_assignments with
    | Except.error m => Except.error m
    | Except.ok _ =>
      match validate_assignments r.compartment_assignments with
      | Except.error m => Except.error m
      | Except.ok _ => Except.ok r

/-- The structured `capacity_error` payload of the 422 capacity response. -/
structure CapacityError where
  compartment_id : Nat
  compartment_capacity : Int
  requested_volume : Int
  overflow_amount : Int
deriving DecidableEq

/-- The structured `contamination_error` payload of the 422 contamination response. -/
structure ContaminationError where
  compartment_id : Nat
  current_product : Option String
  requested_product : String
  cleaning_required : Bool
  estimated_cleaning_time : Option Int
deriving DecidableEq

/-- The structured `compliance_error` payload of the 422 compliance response. -/
structure ComplianceError where
  vehicle_id : Nat
  last_inspection : Option String
  certification_status : TankerCertificationStatus
  required_actions : List String
deriving DecidableEq

/-- The error outcomes (`HTTPException` payloads and pydantic 422s) of the handlers. -/
inductive ApiError
  | notFound (detail : String)
  | capacityOverflow (err : CapacityError)
  | contaminationRisk (err : ContaminationError)
  | complianceViolation (err : ComplianceError)
  | validationError (detail : String)
deriving DecidableEq

/-- Response model `CrossContaminationCheck`. -/
structure CrossContaminationCheck where
  compartment_id : Nat
  current_product : Option String
  requested_product : String
  contamination_risk : Bool
  cleaning_required : Bool
  estimated_cleaning_time_minutes : Option Int
  cleaning_cost_estimate : Option ℚ
deriving DecidableEq

/-- Result of the inline contamination-risk computation of
`validate_cross_contamination` (lines 316 to 334 of the handler file). -/
structure ContaminationAssessment where
  contamination_risk : Bool
  cleaning_required : Bool
  estimated_cleaning_time : Option Int
  cleaning_cost : Option ℚ
deriving DecidableEq

/-- The contamination-risk computation of `validate_cross_contamination`:
risk when the compartment has a last product whose code is in the requested
product's `cross_contamination_risk`; cleaning (with the flat 120-minute,
450-cost estimate) when additionally that code is in `cleaning_required_after`. -/
def assessContamination (lastProduct : Option FuelProduct) (requested : FuelProduct) :
    ContaminationAssessment :=
  match lastProduct with
  | none => ⟨false, false, none, none⟩
  | some lp =>
    if lp.product_code ∈ requested.cross_contamination_risk then
      if lp.product_code ∈ requested.cleaning_required_after then
        ⟨true, true, some 120, some (450 : ℚ)⟩
      else ⟨true, false, none, none⟩
    else ⟨false, false, none, none⟩

/-- Per-assignment body of the `validate_cross_contamination` loop once the
compartment and product rows are resolved: contamination assessment, then the
capacity check, then the `CrossContaminationCheck` response entry. -/
def assessAssignment (compartment : TankerCompartment) (lastProduct : Option FuelProduct)
    (requested : FuelProduct) (volume : Int) : Except ApiError CrossContaminationCheck :=
  let a := assessContamination lastProduct requested
  if volume > compartment.capacity_liters then
    Except.error (ApiError.capacityOverflow
      { compartment_id := compartment.id
        compartment_capacity := compartment.capacity_liters
        requested_volume := volume
        overflow_amount := volume - compartment.capacity_liters })
  else
    Except.ok
      { compartment_id := compartment.id
        current_product := lastProduct.map (fun p => p.product_code)
        requested_product := requested.product_code
        contamination_risk := a.contamination_risk
        cleaning_required := a.cleaning_required
        estimated_cleaning_time_minutes := a.estimated_cleaning_time
        cleaning_cost_estimate := a.cleaning_cost }

/-- One iteration of the `validate_cross_contamination` loop: 404 lookups,
then `assessAssignment`. -/
def checkAssignment (db : DB) (a : CompartmentAssignmentRequest) :
    Except ApiError CrossContaminationCheck :=
  match findCompartment db a.compartment_id with
  | none => Except.error (ApiError.notFound "Compartment not found")
  | some compartment =>
    match findProduct db a.fuel_product_id with
    | none => Except.error (ApiError.notFound "Fuel product not found")
    | some requested =>
      assessAssignment compartment (lastProductOf db compartment) requested
        a.assigned_volume_liters

/-- The `validate_cross_contamination` handler body: assignments processed in
order, first raised error wins, otherwise the list of checks. -/
def validate_cross_contamination (db : DB) :
    List CompartmentAssignmentRequest → Except ApiError (List CrossContaminationCheck)
  | [] => Except.ok []
  | a :: rest =>
    match checkAssignment db a with
    | Except.error e => Except.error e
    | Except.ok ch =>
      match validate_cross_contamination db rest with
      | Except.error e => Except.error e
      | Except.ok chs => Except.ok (ch :: chs)

/-- The `compliance_error` built by `create_bulk_tanker_delivery` on a DOT
certification failure. -/
def complianceErrorOf (t : BulkTankerVehicle) : ComplianceError :=
  { vehicle_id := t.id
    last_inspection := t.last_inspection
    certification_status := t.certification_status
    required_actions := ["DOT inspection", "Hazmat certification renewal"] }

/-- The `contamination_error` built by `create_bulk_tanker_delivery` from the
first risky check. -/
def contaminationErrorOf (ch : CrossContaminationCheck) : ContaminationError :=
  { compartment_id := ch.compartment_id
    current_product := ch.current_product
    requested_product := ch.requested_product
    cleaning_required := ch.cleaning_required
    estimated_cleaning_time := ch.estimated_cleaning_time_minutes }

/-- The totals loop of `create_bulk_tanker_delivery`: accumulate
`total_volume` and `total_weight` (volume times product density, exact). -/
def computeTotals (db : DB) :
    List CompartmentAssignmentRequest → Except ApiError (Int × ℚ)
  | [] => Except.ok (0, 0)
  | a :: rest =>
    match findProduct db a.fuel_product_id with
    | none => Except.error (ApiError.notFound "Fuel product not found")
    | some p =>
      match computeTotals db rest with
      | Except.error e => Except.error e
      | Except.ok (v, w) =>
        Except.ok (a.assigned_volume_liters + v,
          (a.assigned_volume_liters : ℚ) * p.density_kg_per_liter + w)

/-- The assignment-record creation loop of `create_bulk_tanker_delivery`. -/
def buildAssignments (db : DB) (delivery_id : Nat) :
    List CompartmentAssignmentRequest → Except ApiError (List StoredAssignment)
  | [] => Except.ok []
  | a :: rest =>
    match findProduct db a.fuel_product_id with
    | none => Except.error (ApiError.notFound "Fuel product not found")
    | some p =>
      match buildAssignments db delivery_id rest with
      | Except.error e => Except.error e
      | Except.ok rs =>
        Except.ok
          ({ delivery_id := delivery_id
             compartment_id := a.compartment_id
             fuel_product_id := a.fuel_product_id
             delivery_location_id := a.delivery_location_id
             assigned_volume_liters := a.assigned_volume_liters
             calculated_weight_kg := (a.assigned_volume_liters : ℚ) * p.density_kg_per_liter
             loading_sequence := a.loading_sequence
             special_handling_requirements := a.special_handling_requirements
             assignment_status := "assigned" } :: rs)

/-- Continuation of `create_bulk_tanker_delivery` after the vehicle lookup and
the DOT compliance gate: `validate_cross_contamination`, batch-wide
contamination rejection, totals, then the new delivery row and its assignment
rows. -/
def createValidated (db : DB) (project_id : Nat)
    (req : BulkTankerDeliveryRequest) (tanker : BulkTankerVehicle) :
    Except ApiError (StoredDelivery × List StoredAssignment) :=
  match validate_cross_contamination db req.compartment_assignments with
  | Except.error e => Except.error e
  | Except.ok checks =>
    match (checks.filter (fun ch => ch.contamination_risk)).head? with
    | some issue => Except.error (ApiError.contaminationRisk (contaminationErrorOf issue))
    | none =>
      match computeTotals db req.compartment_assignments with
      | Except.error e => Except.error e
      | Except.ok (total_volume, total_weight) =>
        match buildAssignments db (db.deliveries.length + 1)
            req.compartment_assignments with
        | Except.error e => Except.error e
        | Except.ok records =>
          Except.ok
            ({ id := db.deliveries.length + 1
               project_id := project_id
               tanker_vehicle_id := req.tanker_vehicle_id
               total_volume_liters := total_volume
               total_weight_kg := total_weight
               capacity_utilization_percent :=
                 (total_volume : ℚ) / (tanker.total_capacity_liters : ℚ) * 100
               compartments_used := req.compartment_assignments.length
               delivery_status := "planned"
               actual_departure := none
               actual_completion := none
               distance_traveled_km := none
               fuel_consumed_liters := none
               co2_emissions_kg := none
               safety_incidents := none }, records)

/-- The `create_bulk_tanker_delivery` handler: vehicle lookup, DOT compliance
gate, then `createValidated`. An error means the transaction is rolled back
and nothing is persisted. -/
def create_bulk_tanker_delivery (db : DB) (project_id : Nat)
    (req : BulkTankerDeliveryRequest) :
    Except ApiError (StoredDelivery × List StoredAssignment) :=
  match findVehicle db req.tanker_vehicle_id project_id with
  | none => Except.error (ApiError.notFound "Tanker vehicle not found")
  | some tanker =>
    if !tanker.dot_certified
        || tanker.certification_status ≠ TankerCertificationStatus.certified then
      Except.error (ApiError.complianceViolation (complianceErrorOf tanker))
    else
      createValidated db project_id req tanker

/-- The committed effect of a creation attempt: on error the transaction is
rolled back and the store is unchanged; on success the new delivery row and
its assignment rows are appended. -/
def create_and_commit (db : DB) (project_id : Nat)
    (req : BulkTankerDeliveryRequest) : DB :=
  match create_bulk_tanker_delivery db project_id req with
  | Except.error _ => db
  | Except.ok (d, recs) =>
    { db with
      deliveries := db.deliveries ++ [d]
      assignments := db.assignments ++ recs }

/-- The `validate-contamination` endpoint including pydantic request parsing. -/
def validate_contamination_endpoint (db : DB)
    (raw : List CompartmentAssignmentRequest) :
    Except ApiError (List CrossContaminationCheck) :=
  match parseAssignmentList raw with
  | Except.error m => Except.error (ApiError.validationError m)
  | Except.ok asgs => validate_cross_contamination db asgs

/-- The delivery-creation endpoint including pydantic request parsing. -/
def create_delivery_endpoint (db : DB) (project_id : Nat)
    (raw : BulkTankerDeliveryRequest) :
    Except ApiError (StoredDelivery × List StoredAssignment) :=
  match parseDeliveryRequest raw with
  | Except.error m => Except.error (ApiError.validationError m)
  | Except.ok req => create_bulk_tanker_delivery db project_id req

/-- Pydantic request model `DeliveryStatusUpdate` (raw field values). -/
structure DeliveryStatusUpdate where
  delivery_status : String
  actual_departure : Option Int
  actual_completion : Option Int
  distance_traveled_km : Option ℚ
  fuel_consumed_liters : Option ℚ
  safety_incidents : Option (List String)
deriving DecidableEq

/-- The seven values of the `delivery_status` regex on `DeliveryStatusUpdate`. -/
def deliveryStatusStrings : List String :=
  ["planned", "dispatched", "loading", "in_transit", "unloading", "completed", "cancelled"]

/-- Pydantic validation of a `DeliveryStatusUpdate`: the status regex. -/
def parseStatusUpdate (u : DeliveryStatusUpdate) : Except String DeliveryStatusUpdate :=
  if u.delivery_status ∈ deliveryStatusStrings then Except.ok u
  else Except.error "delivery_status does not match the allowed pattern"

/-- Python truthiness of an optional `Decimal` (`None` and `0` are falsy). -/
def decimalTruthy (o : Option ℚ) : Bool :=
  match o with
  | none => false
  | some q => q != 0

/-- Python truthiness of an optional list (`None` and `[]` are falsy). -/
def listTruthy (o : Option (List String)) : Bool :=
  match o with
  | none => false
  | some l => !l.isEmpty

/-- The field updates `update_delivery_status` applies to the delivery row:
the status is overwritten unconditionally; departure/completion when supplied;
distance, fuel and the derived CO2 figure only when a completion is supplied
together with truthy distance and fuel values. -/
def applyStatusUpdate (d : StoredDelivery) (u : DeliveryStatusUpdate) : StoredDelivery :=
  let telemetry := u.actual_completion.isSome
    && decimalTruthy u.distance_traveled_km && decimalTruthy u.fuel_consumed_liters
  { d with
    delivery_status := u.delivery_status
    actual_departure :=
      if u.actual_departure.isSome then u.actual_departure else d.actual_departure
    actual_completion :=
      if u.actual_completion.isSome then u.actual_completion else d.actual_completion
    distance_traveled_km :=
      if telemetry then u.distance_traveled_km else d.distance_traveled_km
    fuel_consumed_liters :=
      if telemetry then u.fuel_consumed_liters else d.fuel_consumed_liters
    co2_emissions_kg :=
      if telemetry then u.fuel_consumed_liters.map (fun q => q * (264 / 100 : ℚ))
      else d.co2_emissions_kg
    safety_incidents :=
      if listTruthy u.safety_incidents then u.safety_incidents else d.safety_incidents }

/-- The `update_delivery_status` handler body: 404 on a missing delivery,
otherwise the matching delivery row is overwritten in place; no other row of
the store is touched. -/
def update_delivery_status (db : DB) (delivery_id : Nat)
    (u : DeliveryStatusUpdate) : Except ApiError DB :=
  match findDelivery db delivery_id with
  | none => Except.error (ApiError.notFound "Delivery not found")
  | some _ =>
    Except.ok
      { db with
        deliveries := db.deliveries.map
          (fun d => if d.id == delivery_id then applyStatusUpdate d u else d) }

/-- The status-update endpoint including pydantic request parsing. -/
def update_status_endpoint (db : DB) (delivery_id : Nat)
    (u : DeliveryStatusUpdate) : Except ApiError DB :=
  match parseStatusUpdate u with
  | Except.error m => Except.error (ApiError.validationError m)
  | Except.ok u2 => update_delivery_status db delivery_id u2

/-- Response shape of the `cleaning-estimate` endpoint. -/
structure CleaningEstimateResponse where
  compartment_id : Nat
  current_product : Option String
  target_product : String
  time_required : Int
  cost_estimate : Int
  cleaning_procedure : String
  certification_required : Bool
  downtime_cost : Int
deriving DecidableEq

/-- The `get_cleaning_estimate` handler: a fixed 120-minute, 450-cost baseline,
raised to 180 minutes and 675 cost only when the compartment's last product is
in the target's `cleaning_required_after` and the two fuel types differ. -/
def get_cleaning_estimate (db : DB) (compartment_id : Nat)
    (target_product_id : Nat) : Except ApiError CleaningEstimateResponse :=
  match findCompartment db compartment_id with
  | none => Except.error (ApiError.notFound "Compartment not found")
  | some compartment =>
    match findProduct db target_product_id with
    | none => Except.error (ApiError.notFound "Target product not found")
    | some target =>
      let base : CleaningEstimateResponse :=
        { compartment_id := compartment_id
          current_product := (lastProductOf db compartment).map (fun p => p.product_code)
          target_product := target.product_code
          time_required := 120
          cost_estimate := 450
          cleaning_procedure := "steam_cleaning_with_neutralization"
          certification_required := true
          downtime_cost := 200 }
      match lastProductOf db compartment with
      | none => Except.ok base
      | some lp =>
        if lp.product_code ∈ target.cleaning_required_after then
          if lp.fuel_type ≠ target.fuel_type then
            Except.ok
              { base with
                time_required := 180
                cost_estimate := 675
                cleaning_procedure := "comprehensive_decontamination" }
          else Except.ok base
        else Except.ok base

/-- Helper: whether an `Except` result is a success. -/
def exceptIsOk {α : Type} (e : Except ApiError α) : Bool :=
  match e with
  | Except.ok _ => true
  | Except.error _ => false

/-- Specification-side total volume: the plain sum of the requested volumes. -/
def specVolumeSum (asgs : List CompartmentAssignmentRequest) : Int :=
  (asgs.map (fun a => a.assigned_volume_liters)).sum

/-- Density of the product a request refers to (0 when absent). -/
def productDensity (db : DB) (pid : Nat) : ℚ :=
  ((findProduct db pid).map (fun p => p.density_kg_per_liter)).getD 0

/-- Specification-side total weight: the sum of volume times product density. -/
def specWeightSum (db : DB) (asgs : List CompartmentAssignmentRequest) : ℚ :=
  (asgs.map (fun a => (a.assigned_volume_liters : ℚ)
    * productDensity db a.fuel_product_id)).sum

/-- Compartments with their operational status and owning vehicle arbitrarily
rewritten; every other field and every other table untouched. -/
def reviseCompartments (db : DB) (σ : TankerCompartment → CompartmentStatus)
    (ω : TankerCompartment → Nat) : DB :=
  { db with
    compartments := db.compartments.map
      (fun c => { c with operational_status := σ c, tanker_vehicle_id := ω c }) }

/-- Fixture: a DOT-certified vehicle that lacks hazmat certification. -/
def vehicleA : BulkTankerVehicle :=
  { id := 1, project_id := 1, total_capacity_liters := 30000
    compartment_count := 3, dot_certified := true
    hazmat_certification := false
    certification_status := TankerCertificationStatus.certified
    last_inspection := some "2025-05-01" }

/-- Fixture: the same vehicle with hazmat certification. -/
def vehicleC : BulkTankerVehicle :=
  { vehicleA with hazmat_certification := true }

/-- Fixture: a vehicle whose certification has expired. -/
def vehicleB : BulkTankerVehicle :=
  { vehicleA with
      id := 2
      hazmat_certification := true
      certification_status := TankerCertificationStatus.expired
      last_inspection := some "2023-01-01" }

/-- Fixture: a clean operational compartment of vehicle 1. -/
def compartmentA : TankerCompartment :=
  { id := 1, tanker_vehicle_id := 1, capacity_liters := 10000
    operational_status := CompartmentStatus.operational
    current_product_id := none, current_volume_liters := 0
    last_product_id := none, requires_cleaning := false }

/-- Fixture: a hazmat-class-3 diesel product with density 0.84. -/
def productA : FuelProduct :=
  { id := 10, project_id := 1, product_name := "Ultra Low Sulfur Diesel"
    product_code := "ULSD", fuel_type := FuelType.diesel
    density_kg_per_liter := 84 / 100, hazmat_class := "3"
    cross_contamination_risk := [], cleaning_required_after := [] }

def dbA : DB :=
  { vehicles := [vehicleA], compartments := [compartmentA]
    products := [productA], deliveries := [], assignments := [] }

def assignmentReqA : CompartmentAssignmentRequest :=
  { compartment_id := 1, fuel_product_id := 10
    assigned_volume_liters := 9000, delivery_location_id := 5
    loading_sequence := none, special_handling_requirements := none }

def reqA : BulkTankerDeliveryRequest :=
  { tanker_vehicle_id := 1, driver_id := none
    planned_departure := 0, planned_completion := 100
    delivery_type := "standard"
    compartment_assignments := [assignmentReqA] }

def dbB : DB := { dbA with vehicles := [vehicleB] }

def reqB : BulkTankerDeliveryRequest := { reqA with tanker_vehicle_id := 2 }

/-- Fixture: a jet-fuel product, recorded as a compartment's last product. -/
def productJet : FuelProduct :=
  { id := 20, project_id := 1, product_name := "Jet A1"
    product_code := "JET-A1", fuel_type := FuelType.jet_fuel
    density_kg_per_liter := 1, hazmat_class := "3"
    cross_contamination_risk := [], cleaning_required_after := [] }

/-- Fixture: a diesel product that conflicts with JET-A1 and needs cleaning
after it. -/
def productUlsd : FuelProduct :=
  { id := 21, project_id := 1, product_name := "Ultra Low Sulfur Diesel"
    product_code := "ULSD", fuel_type := FuelType.diesel
    density_kg_per_liter := 1, hazmat_class := "3"
    cross_contamination_risk := ["JET-A1"]
    cleaning_required_after := ["JET-A1"] }

/-- Fixture: a compartment whose last product was JET-A1. -/
def compartmentC : TankerCompartment :=
  { compartmentA with id := 2, last_product_id := some 20 }

def dbC : DB :=
  { vehicles := [vehicleC], compartments := [compartmentC]
    products := [productJet, productUlsd], deliveries := [], assignments := [] }

def assignmentReqC : CompartmentAssignmentRequest :=
  { compartment_id := 2, fuel_product_id := 21
    assigned_volume_liters := 5000, delivery_location_id := 7
    loading_sequence := none, special_handling_requirements := none }

def reqC : BulkTankerDeliveryRequest :=
  { reqA with compartment_assignments := [assignmentReqC] }

/-- Fixture: a small compartment for the capacity-overflow scenario. -/
def compartmentD : TankerCompartment :=
  { compartmentA with id := 3, capacity_liters := 8000 }

def productD : FuelProduct :=
  { productJet with
      id := 30
      product_name := "High Sulfur Diesel"
      product_code := "HSD" }

def dbD : DB :=
  { vehicles := [vehicleC], compartments := [compartmentD]
    products := [productD], deliveries := [], assignments := [] }

def assignmentReqD : CompartmentAssignmentRequest :=
  { compartment_id := 3, fuel_product_id := 30
    assigned_volume_liters := 9000, delivery_location_id := 5
    loading_sequence := none, special_handling_requirements := none }

def reqD : BulkTankerDeliveryRequest :=
  { reqA with compartment_assignments := [assignmentReqD] }

/-- Fixture: a stored `planned` delivery with one `assigned` assignment row. -/
def deliveryS : StoredDelivery :=
  { id := 1, project_id := 1, tanker_vehicle_id := 1
    total_volume_liters := 9000, total_weight_kg := 7560
    capacity_utilization_percent := 30, compartments_used := 1
    delivery_status := "planned"
    actual_departure := none, actual_completion := none
    distance_traveled_km := none, fuel_consumed_liters := none
    co2_emissions_kg := none, safety_incidents := none }

def assignmentRowS : StoredAssignment :=
  { delivery_id := 1, compartment_id := 1, fuel_product_id := 10
    delivery_location_id := 5, assigned_volume_liters := 9000
    calculated_weight_kg := 7560, loading_sequence := none
    special_handling_requirements := none, assignment_status := "assigned" }

def dbS : DB :=
  { vehicles := [vehicleA], compartments := [compartmentA]
    products := [productA], deliveries := [deliveryS]
    assignments := [assignmentRowS] }

/-- Fixture: a status update that skips straight from planned to in_transit. -/
def updSkip : DeliveryStatusUpdate :=
  { delivery_status := "in_transit", actual_departure := none
    actual_completion := none, distance_traveled_km := none
    fuel_consumed_liters := none, safety_incidents := none }

/-- Fixture: a cancellation update. -/
def updCancel : DeliveryStatusUpdate :=
  { updSkip with delivery_status := "cancelled" }

/-- Fixture: an out-of-service compartment owned by a different vehicle. -/
def compartmentX : TankerCompartment :=
  { compartmentA with
      id := 10
      tanker_vehicle_id := 2
      operational_status := CompartmentStatus.out_of_service
      requires_cleaning := true }

def productX : FuelProduct :=
  { productJet with
      id := 40
      product_name := "Heavy Fuel Oil"
      product_code := "HFO" }

def dbX : DB :=
  { vehicles := [vehicleC], compartments := [compartmentX]
    products := [productX], deliveries := [], assignments := [] }

def assignmentReqX : CompartmentAssignmentRequest :=
  { compartment_id := 10, fuel_product_id := 40
    assigned_volume_liters := 5000, delivery_location_id := 5
    loading_sequence := none, special_handling_requirements := none }

def reqX : BulkTankerDeliveryRequest :=
  { reqA with compartment_assignments := [assignmentReqX] }

/-- Fixture: a compartment far larger than the 50000-liter request ceiling. -/
def compartmentBig : TankerCompartment :=
  { compartmentA with id := 50, capacity_liters := 80000 }

def dbBig : DB :=
  { vehicles := [vehicleC], compartments := [compartmentBig]
    products := [productX], deliveries := [], assignments := [] }

def assignmentReqBig : CompartmentAssignmentRequest :=
  { compartment_id := 50, fuel_product_id := 40
    assigned_volume_liters := 60000, delivery_location_id := 5
    loading_sequence := none, special_handling_requirements := none }

def reqBig : BulkTankerDeliveryRequest :=
  { reqA with compartment_assignments := [assignmentReqBig] }

/-- The deliveries-table rewrite performed by `update_delivery_status`. -/
def updateDeliveriesMap (db : DB) (did : Nat) (u : DeliveryStatusUpdate) : DB :=
  { db with
    deliveries := db.deliveries.map
      (fun x => if x.id == did then applyStatusUpdate x u else x) }

theorem applyStatusUpdate_id (d : StoredDelivery) (u : DeliveryStatusUpdate) :
    (applyStatusUpdate d u).id = d.id := rfl

theorem applyStatusUpdate_status (d : StoredDelivery) (u : DeliveryStatusUpdate) :
    (applyStatusUpdate d u).delivery_status = u.delivery_status := rfl

theorem checkAssignment_capacity_overflow (db : DB) (a : CompartmentAssignmentRequest)
    (c : TankerCompartment) (p : FuelProduct)
    (hc : findCompartment db a.compartment_id = some c)
    (hp : findProduct db a.fuel_product_id = some p)
    (hover : a.assigned_volume_liters > c.capacity_liters) :
    checkAssignment db a = Except.error (ApiError.capacityOverflow
      { compartment_id := c.id
        compartment_capacity := c.capacity_liters
        requested_volume := a.assigned_volume_liters
        overflow_amount := a.assigned_volume_liters - c.capacity_liters }) := by
  simp only [checkAssignment, hc, hp, assessAssignment]
  rw [if_pos hover]

theorem checkAssignment_ok_of_le (db : DB) (a : CompartmentAssignmentRequest)
    (c : TankerCompartment) (p : FuelProduct)
    (hc : findCompartment db a.compartment_id = some c)
    (hp : findProduct db a.fuel_product_id = some p)
    (hle : ¬ a.assigned_volume_liters > c.capacity_liters) :
    ∃ ch, checkAssignment db a = Except.ok ch := by
  simp only [checkAssignment, hc, hp, assessAssignment]
  rw [if_neg hle]
  exact ⟨_, rfl⟩

theorem validate_mem_ok (db : DB) (asgs : List CompartmentAssignmentRequest)
    (checks : List CrossContaminationCheck)
    (h : validate_cross_contamination db asgs = Except.ok checks)
    (a : CompartmentAssignmentRequest) (ha : a ∈ asgs) :
    ∃ ch, ch ∈ checks ∧ checkAssignment db a = Except.ok ch := by
  induction asgs generalizing checks with
  | nil => simp at ha
  | cons b rest ih =>
    unfold validate_cross_contamination at h
    cases hb : checkAssignment db b with
    | error e => rw [hb] at h; exact absurd h (by simp)
    | ok ch =>
      rw [hb] at h
      cases hr : validate_cross_contamination db rest with
      | error e => rw [hr] at h; exact absurd h (by simp)
      | ok chs =>
        rw [hr] at h
        have hch : checks = ch :: chs := by
          have := h
          simp only [Except.ok.injEq] at this
          exact this.symm
        subst hch
        rcases List.mem_cons.mp ha with hab | hat
        · exact ⟨ch, List.mem_cons_self ch chs, hab ▸ hb⟩
        · obtain ⟨ch2, hmem, hck⟩ := ih chs hr hat
          exact ⟨ch2, List.mem_cons_of_mem ch hmem, hck⟩

theorem validate_overflow_error (db : DB) (asgs : List CompartmentAssignmentRequest)
    (hlook : ∀ a ∈ asgs, ∃ c p, findCompartment db a.compartment_id = some c ∧
      findProduct db a.fuel_product_id = some p)
    (hover : ∃ a ∈ asgs, ∃ c, findCompartment db a.compartment_id = some c ∧
      a.assigned_volume_liters > c.capacity_liters) :
    ∃ a ∈ asgs, ∃ c, findCompartment db a.compartment_id = some c ∧
      a.assigned_volume_liters > c.capacity_liters ∧
      validate_cross_contamination db asgs = Except.error (ApiError.capacityOverflow
        { compartment_id := c.id
          compartment_capacity := c.capacity_liters
          requested_volume := a.assigned_volume_liters
          overflow_amount := a.assigned_volume_liters - c.capacity_liters }) := by
  induction asgs with
  | nil => obtain ⟨a, ha, _⟩ := hover; simp at ha
  | cons b rest ih =>
    obtain ⟨c, p, hc, hp⟩ := hlook b (List.mem_cons_self b rest)
    by_cases hb : b.assigned_volume_liters > c.capacity_liters
    · refine ⟨b, List.mem_cons_self b rest, c, hc, hb, ?_⟩
      unfold validate_cross_contamination
      rw [checkAssignment_capacity_overflow db b c p hc hp hb]
    · obtain ⟨ch, hch⟩ := checkAssignment_ok_of_le db b c p hc hp hb
      have hover2 : ∃ a ∈ rest, ∃ c2, findCompartment db a.compartment_id = some c2 ∧
          a.assigned_volume_liters > c2.capacity_liters := by
        obtain ⟨a, ha, c2, hc2, hov2⟩ := hover
        rcases List.mem_cons.mp ha with hab | hat
        · subst hab
          rw [hc] at hc2
          cases hc2
          exact absurd hov2 hb
        · exact ⟨a, hat, c2, hc2, hov2⟩
      obtain ⟨a, hat, c2, hc2, hov2, hval⟩ :=
        ih (fun x hx => hlook x (List.mem_cons_of_mem b hx)) hover2
      refine ⟨a, List.mem_cons_of_mem b hat, c2, hc2, hov2, ?_⟩
      unfold validate_cross_contamination
      rw [hch, hval]

theorem checkAssignment_error_kind (db : DB) (b : CompartmentAssignmentRequest)
    (e : ApiError) (h : checkAssignment db b = Except.error e) :
    (∃ s, e = ApiError.notFound s) ∨ (∃ ce, e = ApiError.capacityOverflow ce) := by
  cases hc : findCompartment db b.compartment_id with
  | none =>
    simp only [checkAssignment, hc] at h
    exact Or.inl ⟨_, by simpa using h.symm⟩
  | some c =>
    cases hp : findProduct db b.fuel_product_id with
    | none =>
      simp only [checkAssignment, hc, hp] at h
      exact Or.inl ⟨_, by simpa using h.symm⟩
    | some p =>
      simp only [checkAssignment, hc, hp, assessAssignment] at h
      by_cases hv : b.assigned_volume_liters > c.capacity_liters
      · rw [if_pos hv] at h
        exact Or.inr ⟨_, by simpa using h.symm⟩
      · rw [if_neg hv] at h
        exact absurd h (by simp)

theorem validate_error_kind (db : DB) (asgs : List CompartmentAssignmentRequest)
    (e : ApiError) (h : validate_cross_contamination db asgs = Except.error e) :
    (∃ s, e = ApiError.notFound s) ∨ (∃ ce, e = ApiError.capacityOverflow ce) := by
  induction asgs with
  | nil => exact absurd h (by simp [validate_cross_contamination])
  | cons b rest ih =>
    unfold validate_cross_contamination at h
    cases hb : checkAssignment db b with
    | error e2 =>
      rw [hb] at h
      have he : e2 = e := by simpa using h
      exact he ▸ checkAssignment_error_kind db b e2 hb
    | ok ch =>
      rw [hb] at h
      cases hr : validate_cross_contamination db rest with
      | error e2 =>
        rw [hr] at h
        have he : e2 = e := by simpa using h
        rw [he] at hr
        exact ih hr
      | ok chs => rw [hr] at h; exact absurd h (by simp)

theorem computeTotals_error_kind (db : DB) (asgs : List CompartmentAssignmentRequest)
    (e : ApiError) (h : computeTotals db asgs = Except.error e) :
    ∃ s, e = ApiError.notFound s := by
  induction asgs with
  | nil => exact absurd h (by simp [computeTotals])
  | cons b rest ih =>
    unfold computeTotals at h
    cases hp : findProduct db b.fuel_product_id with
    | none => rw [hp] at h; exact ⟨_, by simpa using h.symm⟩
    | some p =>
      rw [hp] at h
      cases hr : computeTotals db rest with
      | error e2 =>
        rw [hr] at h
        have he : e2 = e := by simpa using h
        rw [he] at hr
        exact ih hr
      | ok vw => rw [hr] at h; exact absurd h (by simp)

theorem buildAssignments_error_kind (db : DB) (did : Nat)
    (asgs : List CompartmentAssignmentRequest)
    (e : ApiError) (h : buildAssignments db did asgs = Except.error e) :
    ∃ s, e = ApiError.notFound s := by
  induction asgs with
  | nil => exact absurd h (by simp [buildAssignments])
  | cons b rest ih =>
    unfold buildAssignments at h
    cases hp : findProduct db b.fuel_product_id with
    | none => rw [hp] at h; exact ⟨_, by simpa using h.symm⟩
    | some p =>
      rw [hp] at h
      cases hr : buildAssignments db did rest with
      | error e2 =>
        rw [hr] at h
        have he : e2 = e := by simpa using h
        rw [he] at hr
        exact ih hr
      | ok rs => rw [hr] at h; exact absurd h (by simp)

theorem computeTotals_spec (db : DB) (asgs : List CompartmentAssignmentRequest)
    (v : Int) (w : ℚ) (h : computeTotals db asgs = Except.ok (v, w)) :
    v = specVolumeSum asgs ∧ w = specWeightSum db asgs := by
  induction asgs generalizing v w with
  | nil =>
    unfold computeTotals at h
    have hv : (0, (0 : ℚ)) = ((v : Int), w) := by simpa using h
    simp [specVolumeSum, specWeightSum, ← (Prod.mk.injEq .. ▸ hv).1,
      ← (Prod.mk.injEq .. ▸ hv).2]
  | cons b rest ih =>
    unfold computeTotals at h
    cases hp : findProduct db b.fuel_product_id with
    | none => rw [hp] at h; exact absurd h (by simp)
    | some p =>
      rw [hp] at h
      cases hr : computeTotals db rest with
      | error e => rw [hr] at h; exact absurd h (by simp)
      | ok vw =>
        rw [hr] at h
        obtain ⟨v0, w0⟩ := vw
        have hv : (b.assigned_volume_liters + v0,
            (b.assigned_volume_liters : ℚ) * p.density_kg_per_liter + w0) = (v, w) := by
          simpa using h
        obtain ⟨hv1, hv2⟩ := Prod.mk.injEq .. ▸ hv
        obtain ⟨ih1, ih2⟩ := ih v0 w0 hr
        constructor
        · rw [← hv1, ih1]
          simp [specVolumeSum]
        · rw [← hv2, ih2]
          simp [specWeightSum, productDensity, hp]

theorem checkAssignment_risk_true (db : DB) (a : CompartmentAssignmentRequest)
    (c : TankerCompartment) (p : FuelProduct) (lp : FuelProduct)
    (ch : CrossContaminationCheck)
    (hc : findCompartment db a.compartment_id = some c)
    (hp : findProduct db a.fuel_product_id = some p)
    (hlp : lastProductOf db c = some lp)
    (hmem : lp.product_code ∈ p.cross_contamination_risk)
    (hok : checkAssignment db a = Except.ok ch) :
    ch.contamination_risk = true := by
  simp only [checkAssignment, hc, hp, assessAssignment] at hok
  by_cases hv : a.assigned_volume_liters > c.capacity_liters
  · rw [if_pos hv] at hok
    exact absurd hok (by simp)
  · rw [if_neg hv] at hok
    injection hok with hch
    rw [← hch, hlp]
    by_cases h2 : lp.product_code ∈ p.cleaning_required_after <;>
      simp [assessContamination, hmem, h2]

/-- C5: the contamination assessment reports `risk = true` exactly when the
compartment records a last product whose code is a member of the requested
product's `cross_contamination_risk`, and `cleaning_required = true` exactly
when additionally that code is a member of `cleaning_required_after`; with no
last product recorded both come out false. -/
theorem assessContamination_spec (lastP : Option FuelProduct) (requested : FuelProduct) :
    ((assessContamination lastP requested).contamination_risk = true ↔
      ∃ lp, lastP = some lp ∧ lp.product_code ∈ requested.cross_contamination_risk) ∧
    ((assessContamination lastP requested).cleaning_required = true ↔
      ∃ lp, lastP = some lp ∧ lp.product_code ∈ requested.cross_contamination_risk ∧
        lp.product_code ∈ requested.cleaning_required_after) ∧
    assessContamination none requested =
      ⟨false, false, none, none⟩ := by
  refine ⟨?_, ?_, rfl⟩ <;>
    cases lastP with
    | none => simp [assessContamination]
    | some lp =>
      by_cases h1 : lp.product_code ∈ requested.cross_contamination_risk <;>
        by_cases h2 : lp.product_code ∈ requested.cleaning_required_after <;>
          simp [assessContamination, h1, h2]

/-- C4: an assignment whose volume exceeds its compartment's capacity makes
`validate_cross_contamination`, and hence delivery creation, fail with the
structured capacity-overflow error carrying the compartment id, the capacity,
the requested volume and `overflow_amount = requested - capacity`; nothing is
persisted. -/
theorem capacity_overflow_structured_error (db : DB) (project_id : Nat)
    (req : BulkTankerDeliveryRequest) (tanker : BulkTankerVehicle)
    (hveh : findVehicle db req.tanker_vehicle_id project_id = some tanker)
    (hdot : tanker.dot_certified = true)
    (hcert : tanker.certification_status = TankerCertificationStatus.certified)
    (hlook : ∀ a ∈ req.compartment_assignments, ∃ c p,
      findCompartment db a.compartment_id = some c ∧
      findProduct db a.fuel_product_id = some p)
    (hover : ∃ a ∈ req.compartment_assignments, ∃ c,
      findCompartment db a.compartment_id = some c ∧
      a.assigned_volume_liters > c.capacity_liters) :
    ∃ a ∈ req.compartment_assignments, ∃ c,
      findCompartment db a.compartment_id = some c ∧
      a.assigned_volume_liters > c.capacity_liters ∧
      validate_cross_contamination db req.compartment_assignments
        = Except.error (ApiError.capacityOverflow
          { compartment_id := c.id
            compartment_capacity := c.capacity_liters
            requested_volume := a.assigned_volume_liters
            overflow_amount := a.assigned_volume_liters - c.capacity_liters }) ∧
      create_bulk_tanker_delivery db project_id req
        = Except.error (ApiError.capacityOverflow
          { compartment_id := c.id
            compartment_capacity := c.capacity_liters
            requested_volume := a.assigned_volume_liters
            overflow_amount := a.assigned_volume_liters - c.capacity_liters }) ∧
      create_and_commit db project_id req = db := by
  obtain ⟨a, ha, c, hc, hov, hval⟩ := validate_overflow_error db _ hlook hover
  have hcreate : create_bulk_tanker_delivery db project_id req
      = Except.error (ApiError.capacityOverflow
        { compartment_id := c.id
          compartment_capacity := c.capacity_liters
          requested_volume := a.assigned_volume_liters
          overflow_amount := a.assigned_volume_liters - c.capacity_liters }) := by
    simp [create_bulk_tanker_delivery, createValidated, hveh, hdot, hcert, hval]
  refine ⟨a, ha, c, hc, hov, hval, hcreate, ?_⟩
  unfold create_and_commit
  rw [hcreate]

/-- C1: if any assignment of an otherwise processable batch targets a
compartment whose recorded last product's code is in the requested product's
`cross_contamination_risk`, the whole creation fails with the structured
`ContaminationRisk` error built from a risky check (compartment id, current
vs requested product, cleaning flag, estimated cleaning time), and no
delivery or assignment row is persisted. -/
theorem contamination_risk_rejects_whole_batch (db : DB) (project_id : Nat)
    (req : BulkTankerDeliveryRequest) (tanker : BulkTankerVehicle)
    (checks : List CrossContaminationCheck)
    (hveh : findVehicle db req.tanker_vehicle_id project_id = some tanker)
    (hdot : tanker.dot_certified = true)
    (hcert : tanker.certification_status = TankerCertificationStatus.certified)
    (hval : validate_cross_contamination db req.compartment_assignments
      = Except.ok checks)
    (hrisk : ∃ a ∈ req.compartment_assignments, ∃ c p lp,
      findCompartment db a.compartment_id = some c ∧
      findProduct db a.fuel_product_id = some p ∧
      lastProductOf db c = some lp ∧
      lp.product_code ∈ p.cross_contamination_risk) :
    ∃ issue, issue ∈ checks ∧ issue.contamination_risk = true ∧
      create_bulk_tanker_delivery db project_id req
        = Except.error (ApiError.contaminationRisk (contaminationErrorOf issue)) ∧
      create_and_commit db project_id req = db := by
  obtain ⟨a, ha, c, p, lp, hc, hp, hlp, hmem⟩ := hrisk
  obtain ⟨ch, hchmem, hchok⟩ := validate_mem_ok db _ checks hval a ha
  have hrisktrue := checkAssignment_risk_true db a c p lp ch hc hp hlp hmem hchok
  have hfilmem : ch ∈ checks.filter (fun x => x.contamination_risk) :=
    List.mem_filter.mpr ⟨hchmem, hrisktrue⟩
  cases hfil : checks.filter (fun x => x.contamination_risk) with
  | nil => rw [hfil] at hfilmem; simp at hfilmem
  | cons issue tl =>
    have hissue : issue ∈ checks ∧ issue.contamination_risk = true := by
      have := List.mem_filter.mp (hfil ▸ List.mem_cons_self issue tl)
      simpa using this
    have hcreate : create_bulk_tanker_delivery db project_id req
        = Except.error (ApiError.contaminationRisk (contaminationErrorOf issue)) := by
      simp [create_bulk_tanker_delivery, createValidated, hveh, hdot, hcert, hval, hfil]
    refine ⟨issue, hissue.1, hissue.2, hcreate, ?_⟩
    unfold create_and_commit
    rw [hcreate]

/-- C2 (amended): the creation-time compliance gate is exactly
`dot_certified = true AND certification_status = certified`: when it fails,
creation errors with the structured `ComplianceViolation` (vehicle id, last
inspection, certification status, remedial actions) and persists nothing;
when it passes, no `ComplianceViolation` can be produced — in particular
`hazmat_certification` is never consulted. -/
theorem compliance_gate_dot_only (db : DB) (project_id : Nat)
    (req : BulkTankerDeliveryRequest) (tanker : BulkTankerVehicle)
    (hveh : findVehicle db req.tanker_vehicle_id project_id = some tanker) :
    (¬ (tanker.dot_certified = true ∧
        tanker.certification_status = TankerCertificationStatus.certified) →
      create_bulk_tanker_delivery db project_id req
        = Except.error (ApiError.complianceViolation (complianceErrorOf tanker)) ∧
      create_and_commit db project_id req = db) ∧
    ((tanker.dot_certified = true ∧
        tanker.certification_status = TankerCertificationStatus.certified) →
      ∀ ce, create_bulk_tanker_delivery db project_id req
        ≠ Except.error (ApiError.complianceViolation ce)) := by
  constructor
  · intro h
    have hcreate : create_bulk_tanker_delivery db project_id req
        = Except.error (ApiError.complianceViolation (complianceErrorOf tanker)) := by
      cases hd : tanker.dot_certified with
      | false => simp [create_bulk_tanker_delivery, hveh, hd]
      | true =>
        have hs : tanker.certification_status ≠ TankerCertificationStatus.certified :=
          fun hcc => h ⟨hd, hcc⟩
        simp [create_bulk_tanker_delivery, hveh, hd, hs]
    exact ⟨hcreate, by unfold create_and_commit; rw [hcreate]⟩
  · rintro ⟨hd, hcert⟩ ce hEq
    have hgate : create_bulk_tanker_delivery db project_id req
        = createValidated db project_id req tanker := by
      simp [create_bulk_tanker_delivery, hveh, hd, hcert]
    rw [hgate] at hEq
    unfold createValidated at hEq
    cases hval : validate_cross_contamination db req.compartment_assignments with
    | error e =>
      rw [hval] at hEq
      have he : e = ApiError.complianceViolation ce := by simpa using hEq
      rcases validate_error_kind db _ e hval with ⟨s, hs⟩ | ⟨ce2, hs⟩ <;> simp [hs] at he
    | ok checks =>
      rw [hval] at hEq
      simp only [] at hEq
      cases hfil : (checks.filter (fun ch => ch.contamination_risk)).head? with
      | some issue => rw [hfil] at hEq; simp at hEq
      | none =>
        rw [hfil] at hEq
        cases htot : computeTotals db req.compartment_assignments with
        | error e =>
          rw [htot] at hEq
          have he : e = ApiError.complianceViolation ce := by simpa using hEq
          obtain ⟨s, hs⟩ := computeTotals_error_kind db _ e htot
          simp [hs] at he
        | ok vw =>
          obtain ⟨tv, tw⟩ := vw
          rw [htot] at hEq
          cases hbld : buildAssignments db (db.deliveries.length + 1)
              req.compartment_assignments with
          | error e =>
            rw [hbld] at hEq
            have he : e = ApiError.complianceViolation ce := by simpa using hEq
            obtain ⟨s, hs⟩ := buildAssignments_error_kind db _ _ e hbld
            simp [hs] at he
          | ok recs => rw [hbld] at hEq; simp at hEq

/-- C6: every successfully created delivery has `total_volume_liters` equal to
the sum of the assignment volumes, `total_weight_kg` equal to the exact sum of
volume times product density, and `capacity_utilization_percent` equal to
total volume over the vehicle's `total_capacity_liters` times 100. -/
theorem delivery_totals_exact (db : DB) (project_id : Nat)
    (req : BulkTankerDeliveryRequest) (tanker : BulkTankerVehicle)
    (d : StoredDelivery) (records : List StoredAssignment)
    (hveh : findVehicle db req.tanker_vehicle_id project_id = some tanker)
    (hok : create_bulk_tanker_delivery db project_id req = Except.ok (d, records)) :
    d.total_volume_liters = specVolumeSum req.compartment_assignments ∧
    d.total_weight_kg = specWeightSum db req.compartment_assignments ∧
    d.capacity_utilization_percent
      = (d.total_volume_liters : ℚ) / (tanker.total_capacity_liters : ℚ) * 100 := by
  have hgate : create_bulk_tanker_delivery db project_id req
      = createValidated db project_id req tanker := by
    cases hd : tanker.dot_certified with
    | false =>
      have hfail : create_bulk_tanker_delivery db project_id req
          = Except.error (ApiError.complianceViolation (complianceErrorOf tanker)) := by
        simp [create_bulk_tanker_delivery, hveh, hd]
      rw [hfail] at hok
      exact absurd hok (by simp)
    | true =>
      by_cases hs : tanker.certification_status = TankerCertificationStatus.certified
      · simp [create_bulk_tanker_delivery, hveh, hd, hs]
      · have hfail : create_bulk_tanker_delivery db project_id req
            = Except.error (ApiError.complianceViolation (complianceErrorOf tanker)) := by
          simp [create_bulk_tanker_delivery, hveh, hd, hs]
        rw [hfail] at hok
        exact absurd hok (by simp)
  rw [hgate] at hok
  unfold createValidated at hok
  cases hval : validate_cross_contamination db req.compartment_assignments with
  | error e => rw [hval] at hok; exact absurd hok (by simp)
  | ok checks =>
      rw [hval] at hok
      simp only [] at hok
      cases hfil : (checks.filter (fun ch => ch.contamination_risk)).head? with
      | some issue => rw [hfil] at hok; exact absurd hok (by simp)
      | none =>
        rw [hfil] at hok
        cases htot : computeTotals db req.compartment_assignments with
        | error e => rw [htot] at hok; exact absurd hok (by simp)
        | ok vw =>
          obtain ⟨tv, tw⟩ := vw
          rw [htot] at hok
          cases hbld : buildAssignments db (db.deliveries.length + 1)
              req.compartment_assignments with
          | error e => rw [hbld] at hok; exact absurd hok (by simp)
          | ok recs =>
            rw [hbld] at hok
            have hpair := (by simpa using hok :
              ({ id := db.deliveries.length + 1
                 project_id := project_id
                 tanker_vehicle_id := req.tanker_vehicle_id
                 total_volume_liters := tv
                 total_weight_kg := tw
                 capacity_utilization_percent :=
                   (tv : ℚ) / (tanker.total_capacity_liters : ℚ) * 100
                 compartments_used := req.compartment_assignments.length
                 delivery_status := "planned"
                 actual_departure := none
                 actual_completion := none
                 distance_traveled_km := none
                 fuel_consumed_liters := none
                 co2_emissions_kg := none
                 safety_incidents := none } : StoredDelivery) = d ∧ recs = records)
            obtain ⟨htv, htw⟩ := computeTotals_spec db _ tv tw htot
            rw [← hpair.1, ← htv, ← htw]
            exact ⟨rfl, rfl, rfl⟩

/-- C6 witness: 9000 liters of the density-0.84 product on the 30000-liter
vehicle gives weight 7560 kg and utilization 30 percent. -/
theorem delivery_totals_exact_witness :
    ∃ d records, create_bulk_tanker_delivery dbA 1 reqA = Except.ok (d, records) ∧
      d.total_volume_liters = 9000 ∧ d.total_weight_kg = 7560 ∧
      d.capacity_utilization_percent = 30 := by
  obtain ⟨d, records, hok⟩ :
      ∃ d records, create_bulk_tanker_delivery dbA 1 reqA = Except.ok (d, records) :=
    ⟨_, _, rfl⟩
  have hveh : findVehicle dbA reqA.tanker_vehicle_id 1 = some vehicleA := rfl
  obtain ⟨h1, h2, h3⟩ := delivery_totals_exact dbA 1 reqA vehicleA d records hveh hok
  have hvol : d.total_volume_liters = 9000 := by
    rw [h1]; simp [specVolumeSum, reqA, assignmentReqA]
  refine ⟨d, records, hok, hvol, ?_, ?_⟩
  · rw [h2]
    norm_num [specWeightSum, productDensity, findProduct, dbA, reqA, assignmentReqA,
      productA, List.find?]
  · rw [h3, hvol]
    norm_num [vehicleA]

/-- C2 counterexample: a creation with a vehicle whose
`hazmat_certification` is false and a hazmat-class-3 product succeeds — the
hazmat flag is never checked, contradicting the claim that such a creation
must fail with `ComplianceViolation`. -/
theorem hazmat_never_checked_cex :
    exceptIsOk (create_bulk_tanker_delivery dbA 1 reqA) = true ∧
    (findVehicle dbA 1 1).map (fun t => t.hazmat_certification) = some false ∧
    (findProduct dbA 10).map (fun p => p.hazmat_class) = some "3" := by
  exact ⟨by decide, by decide, by decide⟩

/-- C2 witness: an expired vehicle makes creation fail with the structured
`ComplianceViolation` and nothing is persisted. -/
theorem compliance_gate_dot_only_witness :
    create_bulk_tanker_delivery dbB 1 reqB
      = Except.error (ApiError.complianceViolation
        { vehicle_id := 2
          last_inspection := some "2023-01-01"
          certification_status := TankerCertificationStatus.expired
          required_actions := ["DOT inspection", "Hazmat certification renewal"] }) ∧
    create_and_commit dbB 1 reqB = dbB := by
  have hveh : findVehicle dbB reqB.tanker_vehicle_id 1 = some vehicleB := rfl
  have h := (compliance_gate_dot_only dbB 1 reqB vehicleB hveh).1 (by decide)
  exact ⟨h.1, h.2⟩

/-- C1 witness: a compartment whose last product JET-A1 is in the requested
product's risk list makes the whole creation fail with `ContaminationRisk`
and leaves the store unchanged. -/
theorem contamination_risk_rejects_whole_batch_witness :
    (∃ e, create_bulk_tanker_delivery dbC 1 reqC
      = Except.error (ApiError.contaminationRisk e)) ∧
    create_and_commit dbC 1 reqC = dbC := by
  have hveh : findVehicle dbC reqC.tanker_vehicle_id 1 = some vehicleC := rfl
  obtain ⟨checks, hval⟩ : ∃ checks,
      validate_cross_contamination dbC reqC.compartment_assignments
        = Except.ok checks := ⟨_, rfl⟩
  have hrisk : ∃ a ∈ reqC.compartment_assignments, ∃ c p lp,
      findCompartment dbC a.compartment_id = some c ∧
      findProduct dbC a.fuel_product_id = some p ∧
      lastProductOf dbC c = some lp ∧
      lp.product_code ∈ p.cross_contamination_risk := by
    refine ⟨assignmentReqC, ?_, compartmentC, productUlsd, productJet,
      rfl, rfl, rfl, by decide⟩
    exact List.mem_cons_self _ _
  obtain ⟨issue, _, _, hcreate, hcommit⟩ :=
    contamination_risk_rejects_whole_batch dbC 1 reqC vehicleC checks
      hveh rfl rfl hval hrisk
  exact ⟨⟨contaminationErrorOf issue, hcreate⟩, hcommit⟩

/-- C4 witness: assigning 9000 liters to an 8000-liter compartment fails both
validation and creation with the structured capacity error (capacity 8000,
requested 9000, overflow 1000) and persists nothing. -/
theorem capacity_overflow_structured_error_witness :
    (∃ ce : CapacityError,
      validate_cross_contamination dbD reqD.compartment_assignments
        = Except.error (ApiError.capacityOverflow ce) ∧
      create_bulk_tanker_delivery dbD 1 reqD
        = Except.error (ApiError.capacityOverflow ce) ∧
      ce.compartment_capacity = 8000 ∧ ce.requested_volume = 9000 ∧
      ce.overflow_amount = 1000) ∧
    create_and_commit dbD 1 reqD = dbD := by
  have hveh : findVehicle dbD reqD.tanker_vehicle_id 1 = some vehicleC := rfl
  have hlist : reqD.compartment_assignments = [assignmentReqD] := rfl
  have hlook : ∀ a ∈ reqD.compartment_assignments, ∃ c p,
      findCompartment dbD a.compartment_id = some c ∧
      findProduct dbD a.fuel_product_id = some p := by
    intro a ha
    rw [hlist] at ha
    have haq := List.mem_singleton.mp ha
    subst haq
    exact ⟨compartmentD, productD, rfl, rfl⟩
  have hover : ∃ a ∈ reqD.compartment_assignments, ∃ c,
      findCompartment dbD a.compartment_id = some c ∧
      a.assigned_volume_liters > c.capacity_liters := by
    refine ⟨assignmentReqD, ?_, compartmentD, rfl, by decide⟩
    rw [hlist]
    exact List.mem_cons_self _ _
  obtain ⟨a, ha, c, hc, hov, hval, hcreate, hcommit⟩ :=
    capacity_overflow_structured_error dbD 1 reqD vehicleC hveh rfl rfl hlook hover
  rw [hlist] at ha
  have haq := List.mem_singleton.mp ha
  subst haq
  have hcq : c = compartmentD :=
    Option.some.inj
      (((rfl : findCompartment dbD assignmentReqD.compartment_id
        = some compartmentD).symm.trans hc).symm)
  subst hcq
  refine ⟨⟨_, hval, hcreate, by decide, by decide, by decide⟩, hcommit⟩

theorem find?_update_delivery (l : List StoredDelivery) (did : Nat)
    (u : DeliveryStatusUpdate) (d : StoredDelivery)
    (h : l.find? (fun x => x.id == did) = some d) :
    (l.map (fun x => if x.id == did then applyStatusUpdate x u else x)).find?
        (fun x => x.id == did) = some (applyStatusUpdate d u) := by
  induction l with
  | nil => simp at h
  | cons x xs ih =>
    cases hx : (x.id == did) with
    | true =>
      simp only [List.find?_cons, hx] at h
      have hxd : x = d := Option.some.inj h
      subst hxd
      simp only [List.map_cons, hx, if_true, List.find?_cons, applyStatusUpdate_id]
    | false =>
      simp only [List.find?_cons, hx] at h
      simp only [List.map_cons, hx, Bool.false_eq_true, if_false, List.find?_cons]
      exact ih h

/-- C3 (amended): `update_delivery_status` enforces no transition order at
all — for any stored delivery and any requested status passing the regex, the
update succeeds and overwrites the stored status with the requested one,
including skips such as planned straight to in_transit; only a missing
delivery fails. -/
theorem status_update_accepts_any_valid_status (db : DB) (did : Nat)
    (u : DeliveryStatusUpdate) (d : StoredDelivery)
    (hfind : findDelivery db did = some d)
    (hvalid : u.delivery_status ∈ deliveryStatusStrings) :
    ∃ db2, update_status_endpoint db did u = Except.ok db2 ∧
      findDelivery db2 did = some (applyStatusUpdate d u) ∧
      (applyStatusUpdate d u).delivery_status = u.delivery_status := by
  have hparse : parseStatusUpdate u = Except.ok u := by
    unfold parseStatusUpdate
    rw [if_pos hvalid]
  refine ⟨updateDeliveriesMap db did u, ?_, ?_, applyStatusUpdate_status d u⟩
  · show update_status_endpoint db did u = Except.ok (updateDeliveriesMap db did u)
    simp only [update_status_endpoint, hparse, update_delivery_status, hfind]
    rfl
  · exact find?_update_delivery db.deliveries did u d hfind

/-- C3 counterexample: a delivery in `planned` updated straight to
`in_transit` is accepted and the stored status changes — the claim that such
an out-of-order attempt is rejected and leaves the status unchanged is false. -/
theorem skip_transition_accepted_cex :
    (findDelivery dbS 1).map (fun d => d.delivery_status) = some "planned" ∧
    (update_status_endpoint dbS 1 updSkip).toOption.bind
      (fun db2 => (findDelivery db2 1).map (fun d => d.delivery_status))
        = some "in_transit" := by
  exact ⟨by decide, by decide⟩

/-- C3 witness: the amended theorem applied to the stored `planned` delivery
and the `in_transit` request. -/
theorem status_update_accepts_any_valid_status_witness :
    ∃ db2, update_status_endpoint dbS 1 updSkip = Except.ok db2 ∧
      findDelivery db2 1 = some (applyStatusUpdate deliveryS updSkip) ∧
      (applyStatusUpdate deliveryS updSkip).delivery_status = "in_transit" := by
  have h := status_update_accepts_any_valid_status dbS 1 updSkip deliveryS rfl
    (by decide)
  exact h

/-- C7 (amended): a status update — in particular a cancellation — rewrites
only the delivery row: the assignment rows (and every other table) are left
exactly as they were, whatever their status; no cascade to assignments
happens. -/
theorem cancel_leaves_assignments_untouched (db : DB) (did : Nat)
    (u : DeliveryStatusUpdate) (db2 : DB)
    (_hcancel : u.delivery_status = "cancelled")
    (h : update_status_endpoint db did u = Except.ok db2) :
    db2.assignments = db.assignments ∧
    db2.vehicles = db.vehicles ∧
    db2.compartments = db.compartments ∧
    db2.products = db.products := by
  unfold update_status_endpoint at h
  cases hparse : parseStatusUpdate u with
  | error m => rw [hparse] at h; exact absurd h (by simp)
  | ok u2 =>
    rw [hparse] at h
    unfold update_delivery_status at h
    cases hfind : findDelivery db did with
    | none => rw [hfind] at h; exact absurd h (by simp)
    | some d =>
      rw [hfind] at h
      have hdb : _ = db2 := Option.some.inj (by simpa using h)
      rw [← hdb]
      exact ⟨rfl, rfl, rfl, rfl⟩

/-- C7 counterexample: cancelling the stored delivery leaves its sole
non-terminal (`assigned`) assignment with status `assigned`, not `cancelled` —
the claimed cascade does not exist. -/
theorem cancel_does_not_cascade_cex :
    (update_status_endpoint dbS 1 updCancel).toOption.bind
      (fun db2 => (findDelivery db2 1).map (fun d => d.delivery_status))
        = some "cancelled" ∧
    (update_status_endpoint dbS 1 updCancel).toOption.map
      (fun db2 => db2.assignments.map (fun a => a.assignment_status))
        = some ["assigned"] := by
  exact ⟨by decide, by decide⟩

/-- C7 witness: the amended theorem applied to the concrete cancellation. -/
theorem cancel_leaves_assignments_untouched_witness :
    ∃ db2, update_status_endpoint dbS 1 updCancel = Except.ok db2 ∧
      db2.assignments = dbS.assignments := by
  obtain ⟨db2, h⟩ : ∃ db2, update_status_endpoint dbS 1 updCancel = Except.ok db2 :=
    ⟨_, rfl⟩
  exact ⟨db2, h,
    (cancel_leaves_assignments_untouched dbS 1 updCancel db2 rfl h).1⟩

theorem revise_products (db : DB) (σ : TankerCompartment → CompartmentStatus)
    (ω : TankerCompartment → Nat) :
    (reviseCompartments db σ ω).products = db.products := rfl

theorem findProduct_revise (db : DB) (σ : TankerCompartment → CompartmentStatus)
    (ω : TankerCompartment → Nat) (pid : Nat) :
    findProduct (reviseCompartments db σ ω) pid = findProduct db pid := rfl

theorem findVehicle_revise (db : DB) (σ : TankerCompartment → CompartmentStatus)
    (ω : TankerCompartment → Nat) (vid project_id : Nat) :
    findVehicle (reviseCompartments db σ ω) vid project_id
      = findVehicle db vid project_id := rfl

theorem findCompartment_revise (db : DB) (σ : TankerCompartment → CompartmentStatus)
    (ω : TankerCompartment → Nat) (cid : Nat) :
    findCompartment (reviseCompartments db σ ω) cid
      = (findCompartment db cid).map
          (fun c => { c with operational_status := σ c, tanker_vehicle_id := ω c }) := by
  unfold findCompartment reviseCompartments
  rw [List.find?_map]
  rfl

theorem lastProductOf_revise (db : DB) (σ : TankerCompartment → CompartmentStatus)
    (ω : TankerCompartment → Nat) (c : TankerCompartment) :
    lastProductOf (reviseCompartments db σ ω)
        ({ c with operational_status := σ c, tanker_vehicle_id := ω c })
      = lastProductOf db c := by
  unfold lastProductOf
  cases c.last_product_id <;> rfl

theorem checkAssignment_revise (db : DB) (σ : TankerCompartment → CompartmentStatus)
    (ω : TankerCompartment → Nat) (a : CompartmentAssignmentRequest) :
    checkAssignment (reviseCompartments db σ ω) a = checkAssignment db a := by
  unfold checkAssignment
  rw [findCompartment_revise]
  cases hc : findCompartment db a.compartment_id with
  | none => rfl
  | some c =>
    simp only [Option.map_some']
    rw [findProduct_revise]
    cases hp : findProduct db a.fuel_product_id with
    | none => rfl
    | some p =>
      rw [lastProductOf_revise]
      rfl

theorem validate_revise (db : DB) (σ : TankerCompartment → CompartmentStatus)
    (ω : TankerCompartment → Nat) (asgs : List CompartmentAssignmentRequest) :
    validate_cross_contamination (reviseCompartments db σ ω) asgs
      = validate_cross_contamination db asgs := by
  induction asgs with
  | nil => rfl
  | cons a rest ih =>
    unfold validate_cross_contamination
    rw [checkAssignment_revise, ih]

theorem computeTotals_revise (db : DB) (σ : TankerCompartment → CompartmentStatus)
    (ω : TankerCompartment → Nat) (asgs : List CompartmentAssignmentRequest) :
    computeTotals (reviseCompartments db σ ω) asgs = computeTotals db asgs := by
  induction asgs with
  | nil => rfl
  | cons a rest ih =>
    unfold computeTotals
    rw [findProduct_revise, ih]

theorem buildAssignments_revise (db : DB) (σ : TankerCompartment → CompartmentStatus)
    (ω : TankerCompartment → Nat) (did : Nat)
    (asgs : List CompartmentAssignmentRequest) :
    buildAssignments (reviseCompartments db σ ω) did asgs
      = buildAssignments db did asgs := by
  induction asgs with
  | nil => rfl
  | cons a rest ih =>
    unfold buildAssignments
    rw [findProduct_revise, ih]

/-- C8 (amended): the creation path never consults a compartment's owning
vehicle or operational status — rewriting both fields of every compartment
arbitrarily leaves the result of `create_bulk_tanker_delivery` unchanged;
referenced compartments only need to exist (404 otherwise). -/
theorem compartment_owner_status_ignored (db : DB)
    (σ : TankerCompartment → CompartmentStatus) (ω : TankerCompartment → Nat)
    (project_id : Nat) (req : BulkTankerDeliveryRequest) :
    create_bulk_tanker_delivery (reviseCompartments db σ ω) project_id req
      = create_bulk_tanker_delivery db project_id req := by
  unfold create_bulk_tanker_delivery createValidated
  rw [findVehicle_revise, validate_revise, computeTotals_revise]
  cases findVehicle db req.tanker_vehicle_id project_id with
  | none => rfl
  | some tanker =>
    simp only []
    cases validate_cross_contamination db req.compartment_assignments with
    | error e => rfl
    | ok checks =>
      simp only []
      cases (checks.filter (fun ch => ch.contamination_risk)).head? with
      | some issue => rfl
      | none =>
        cases computeTotals db req.compartment_assignments with
        | error e => rfl
        | ok vw =>
          have hrev : (reviseCompartments db σ ω).deliveries = db.deliveries := rfl
          rw [hrev, buildAssignments_revise]

/-- C8 counterexample: a creation whose only assignment references a
compartment owned by a different vehicle (owner 2, target vehicle 1) and in
`out_of_service` status succeeds — neither ownership nor operational status is
checked, contradicting the claim that such a creation must fail. -/
theorem foreign_nonoperational_compartment_accepted_cex :
    exceptIsOk (create_bulk_tanker_delivery dbX 1 reqX) = true ∧
    (findVehicle dbX 1 1).map (fun v => v.id) = some 1 ∧
    (findCompartment dbX 10).map (fun c => c.tanker_vehicle_id) = some 2 ∧
    (findCompartment dbX 10).map (fun c => c.operational_status)
      = some CompartmentStatus.out_of_service := by
  exact ⟨by decide, by decide, by decide, by decide⟩

/-- C9 (amended): the fuel-type-keyed 120/450 versus 180/675 table lives only
in the `cleaning-estimate` endpoint; the contamination assessment used by the
`ContaminationRisk` rejection always reports the flat 120-minute, 450-cost
estimate whenever cleaning is required, regardless of fuel types. -/
theorem cleaning_estimate_policy (db : DB) (cid pid : Nat)
    (c : TankerCompartment) (lp target : FuelProduct)
    (r : CleaningEstimateResponse)
    (hc : findCompartment db cid = some c)
    (hlp : lastProductOf db c = some lp)
    (ht : findProduct db pid = some target)
    (hclean : lp.product_code ∈ target.cleaning_required_after)
    (hr : get_cleaning_estimate db cid pid = Except.ok r) :
    ((lp.fuel_type = target.fuel_type →
        r.time_required = 120 ∧ r.cost_estimate = 450) ∧
     (lp.fuel_type ≠ target.fuel_type →
        r.time_required = 180 ∧ r.cost_estimate = 675)) ∧
    (∀ (lastP : Option FuelProduct) (req2 : FuelProduct),
      (assessContamination lastP req2).cleaning_required = true →
      (assessContamination lastP req2).estimated_cleaning_time = some 120 ∧
      (assessContamination lastP req2).cleaning_cost = some (450 : ℚ)) := by
  constructor
  · simp only [get_cleaning_estimate, hc, ht, hlp] at hr
    rw [if_pos hclean] at hr
    by_cases hft : lp.fuel_type = target.fuel_type
    · rw [if_neg (by simp [hft])] at hr
      injection hr with hb
      rw [← hb]
      exact ⟨fun _ => ⟨rfl, rfl⟩, fun hne => absurd hft hne⟩
    · rw [if_pos hft] at hr
      injection hr with hb
      rw [← hb]
      exact ⟨fun heq => absurd heq hft, fun _ => ⟨rfl, rfl⟩⟩
  · intro lastP req2 hcl
    cases lastP with
    | none => simp [assessContamination] at hcl
    | some lp2 =>
      by_cases h1 : lp2.product_code ∈ req2.cross_contamination_risk
      · by_cases h2 : lp2.product_code ∈ req2.cleaning_required_after
        · simp [assessContamination, h1, h2]
        · simp [assessContamination, h1, h2] at hcl
      · simp [assessContamination, h1] at hcl

/-- C9 counterexample: with last product JET-A1 (jet fuel) and requested
product ULSD (diesel), the fuel types differ, yet the `ContaminationRisk`
rejection reports estimated cleaning time 120, not the claimed 180. -/
theorem contamination_estimate_always_120_cex :
    create_bulk_tanker_delivery dbC 1 reqC
      = Except.error (ApiError.contaminationRisk
        { compartment_id := 2
          current_product := some "JET-A1"
          requested_product := "ULSD"
          cleaning_required := true
          estimated_cleaning_time := some 120 }) ∧
    (findProduct dbC 20).map (fun p => p.fuel_type) = some FuelType.jet_fuel ∧
    (findProduct dbC 21).map (fun p => p.fuel_type) = some FuelType.diesel := by
  exact ⟨by decide, by decide, by decide⟩

/-- C9 witness: the amended theorem at the JET-A1 to ULSD swap — the estimate
endpoint reports 180/675 for the cross-type swap while the assessment reports
the flat 120. -/
theorem cleaning_estimate_policy_witness :
    (∃ r, get_cleaning_estimate dbC 2 21 = Except.ok r ∧
      r.time_required = 180 ∧ r.cost_estimate = 675) ∧
    (assessContamination (some productJet) productUlsd).estimated_cleaning_time
      = some 120 := by
  obtain ⟨r, hr⟩ : ∃ r, get_cleaning_estimate dbC 2 21 = Except.ok r := ⟨_, rfl⟩
  have h := cleaning_estimate_policy dbC 2 21 compartmentC productJet productUlsd r
    rfl rfl rfl (by decide) hr
  refine ⟨⟨r, hr, h.1.2 (by decide)⟩, ?_⟩
  exact (h.2 (some productJet) productUlsd (by decide)).1

theorem parseAssignmentRequest_over50000 (a : CompartmentAssignmentRequest)
    (h : a.assigned_volume_liters > 50000) :
    parseAssignmentRequest a
      = Except.error "Volume exceeds reasonable compartment capacity" := by
  have h0 : ¬ a.assigned_volume_liters ≤ 0 := by omega
  unfold parseAssignmentRequest validate_volume
  rw [if_neg h0]
  simp only [if_neg h0, if_pos h]

theorem parseAssignmentList_error_of_big (asgs : List CompartmentAssignmentRequest)
    (a : CompartmentAssignmentRequest) (ha : a ∈ asgs)
    (h : a.assigned_volume_liters > 50000) :
    ∃ m, parseAssignmentList asgs = Except.error m := by
  induction asgs with
  | nil => simp at ha
  | cons b rest ih =>
    cases hpb : parseAssignmentRequest b with
    | error m => exact ⟨m, by simp [parseAssignmentList, hpb]⟩
    | ok b2 =>
      rcases List.mem_cons.mp ha with hab | hat
      · subst hab
        rw [parseAssignmentRequest_over50000 a h] at hpb
        exact absurd hpb (by simp)
      · obtain ⟨m, hm⟩ := ih hat
        exact ⟨m, by simp [parseAssignmentList, hpb, hm]⟩

/-- C10: an assignment with volume above 50000 liters is rejected by the
pydantic request validation itself — `validate_volume` fails, so both the
contamination-validation endpoint and the delivery-creation endpoint return a
validation error for EVERY database state, i.e. before and independently of
any compartment lookup, even when the compartment's capacity exceeds 50000. -/
theorem volume_above_50000_rejected_at_parse
    (asgs : List CompartmentAssignmentRequest) (a : CompartmentAssignmentRequest)
    (ha : a ∈ asgs) (hbig : a.assigned_volume_liters > 50000) :
    validate_volume a.assigned_volume_liters
      = Except.error "Volume exceeds reasonable compartment capacity" ∧
    (∀ db : DB, ∃ m, validate_contamination_endpoint db asgs
      = Except.error (ApiError.validationError m)) ∧
    (∀ (db : DB) (project_id : Nat) (req : BulkTankerDeliveryRequest),
      req.compartment_assignments = asgs →
      ∃ m, create_delivery_endpoint db project_id req
        = Except.error (ApiError.validationError m)) := by
  have hvv : validate_volume a.assigned_volume_liters
      = Except.error "Volume exceeds reasonable compartment capacity" := by
    unfold validate_volume
    rw [if_neg (by omega), if_pos hbig]
  obtain ⟨m0, hm0⟩ := parseAssignmentList_error_of_big asgs a ha hbig
  refine ⟨hvv, fun db => ⟨m0, ?_⟩, fun db project_id req hreq => ?_⟩
  · simp [validate_contamination_endpoint, hm0]
  · have hparse : ∃ m, parseDeliveryRequest req = Except.error m := by
      unfold parseDeliveryRequest
      rw [hreq]
      by_cases h1 : req.planned_completion ≤ req.planned_departure
      · rw [if_pos h1]; exact ⟨_, rfl⟩
      · rw [if_neg h1]
        by_cases h2 : (!(req.delivery_type == "standard"
            || req.delivery_type == "emergency"
            || req.delivery_type == "scheduled")) = true
        · rw [if_pos h2]; exact ⟨_, rfl⟩
        · rw [if_neg h2]
          exact ⟨m0, by simp [hm0]⟩
    obtain ⟨m1, hp1⟩ := hparse
    exact ⟨m1, by simp [create_delivery_endpoint, hp1]⟩

/-- C10 witness: a 60000-liter assignment is rejected at parse even though its
compartment's capacity is 80000 liters. -/
theorem volume_above_50000_rejected_at_parse_witness :
    validate_volume (60000 : Int)
      = Except.error "Volume exceeds reasonable compartment capacity" ∧
    (∃ m, validate_contamination_endpoint dbBig [assignmentReqBig]
      = Except.error (ApiError.validationError m)) ∧
    (∃ m, create_delivery_endpoint dbBig 1 reqBig
      = Except.error (ApiError.validationError m)) ∧
    (findCompartment dbBig 50).map (fun c => c.capacity_liters) = some 80000 := by
  have h := volume_above_50000_rejected_at_parse [assignmentReqBig] assignmentReqBig
    (List.mem_cons_self _ _) (by decide)
  exact ⟨h.1, h.2.1 dbBig, h.2.2 dbBig 1 reqBig rfl, by decide⟩
